import Mathlib

/-!
Shallow embedding of the SmartDataProfiler subsystem
(`src/building_blocks/data/smart_data_profiler.py`): per-column type
inference, column profiling, pattern detection, correlation analysis,
missing-value pattern classification, quality scoring and the `execute`
orchestrator.  Cell values are embedded as an inductive `PyVal`; machine
floats are modelled as rationals; pandas storage dtypes are explicit.
-/

attribute [local semireducible] Rat.mul Rat.add Rat.sub Rat.inv Rat.ofScientific

namespace SDP

/-- Kinds of Python container values (`list`, `dict`, `tuple`, `set`).
Containers are opaque in this model (identified by a tag); `list`, `dict`
and `set` are unhashable, which is what the source's `TypeError` guards
around `nunique()` react to. -/
inductive ContainerKind where
  | listK | dictK | tupleK | setK
deriving DecidableEq, Repr

/-- A Python cell value as stored in a pandas column.  Missing entries
(`None` / `NaN` / `NaT`) are modelled uniformly as `null`.  Floats are
modelled as rationals.  `dt` is a date/datetime value on a rational time
axis measured in days (`dateOnly` distinguishes `datetime.date` from
`datetime`/`Timestamp`). -/
inductive PyVal where
  | null
  | bool (b : Bool)
  | int (n : Int)
  | float (q : ℚ)
  | str (s : String)
  | dt (dateOnly : Bool) (t : ℚ)
  | container (k : ContainerKind) (tag : Nat)
deriving DecidableEq, Repr

/-- The Python runtime type of a value, as `type(x)` sees it (used by the
mixed-type branch of `_determine_dtype`). -/
inductive PyType where
  | boolT | intT | floatT | strT | datetimeT | dateT
  | listT | dictT | tupleT | setT | noneT
deriving DecidableEq, Repr

def PyVal.pyType : PyVal → PyType
  | .null => .noneT
  | .bool _ => .boolT
  | .int _ => .intT
  | .float _ => .floatT
  | .str _ => .strT
  | .dt dateOnly _ => if dateOnly then .dateT else .datetimeT
  | .container k _ =>
      match k with
      | .listK => .listT
      | .dictK => .dictT
      | .tupleK => .tupleT
      | .setK => .setT

def PyVal.isNull : PyVal → Bool
  | .null => true
  | _ => false

def PyVal.isString : PyVal → Bool
  | .str _ => true
  | _ => false

/-- Whether a value is hashable in Python: `list`, `dict` and `set` cells
raise `TypeError` inside hash-based operations such as `nunique()`. -/
def PyVal.hashable : PyVal → Bool
  | .container .listK _ => false
  | .container .dictK _ => false
  | .container .setK _ => false
  | _ => true

/-- Python `==` on cell values.  Crucially, Python's `bool` is a subtype of
`int`, so `0 == False` and `1 == True` (and likewise for floats); this is
exactly what makes `set([0, 1]).issubset({True, False, ...})` evaluate to
`True` in `_determine_dtype`. -/
def pyEq : PyVal → PyVal → Bool
  | .bool a, .bool b => a == b
  | .bool a, .int n => (if a then (1 : Int) else 0) == n
  | .int n, .bool a => n == (if a then (1 : Int) else 0)
  | .bool a, .float q => (if a then (1 : ℚ) else 0) == q
  | .float q, .bool a => q == (if a then (1 : ℚ) else 0)
  | .int m, .int n => m == n
  | .int m, .float q => (m : ℚ) == q
  | .float q, .int m => q == (m : ℚ)
  | .float p, .float q => p == q
  | .str s, .str t => s == t
  | .dt _ a, .dt _ b => a == b
  | .container k a, .container l b => k == l && a == b
  | .null, .null => true
  | _, _ => false

/-- One step of first-occurrence deduplication under Python equality. -/
def insertIfNew (acc : List PyVal) (v : PyVal) : List PyVal :=
  if acc.any (fun w => pyEq w v) then acc else acc ++ [v]

/-- Distinct values of a list in first-encounter order, deduplicated under
Python equality — models the hash-table uniqueness used by
`Series.unique()` / `Series.nunique()` / `value_counts()`. -/
def pyUnique (vs : List PyVal) : List PyVal :=
  vs.foldl insertIfNew []

/-- `Series.nunique()` over the full cell list: drops nulls, counts
distinct values; `none` models the `TypeError` raised when some value is
unhashable. -/
def nuniqueOpt (cells : List PyVal) : Option Nat :=
  if cells.all PyVal.hashable then
    some (pyUnique (cells.filter (fun v => !v.isNull))).length
  else
    none

/-- Membership in the literal set `{True, False, 'True', 'False', 'true',
'false'}` from `_determine_dtype`, under Python equality (so `0` and `1`
are members, via `False` and `True`). -/
def inBoolSet (v : PyVal) : Bool :=
  pyEq v (.bool true) || pyEq v (.bool false) ||
  pyEq v (.str "True") || pyEq v (.str "False") ||
  pyEq v (.str "true") || pyEq v (.str "false")

/-- Digits to a natural number (most significant first). -/
def digitsToNat (cs : List Char) : Nat :=
  cs.foldl (fun a c => a * 10 + (c.toNat - 48)) 0

/-- Optional exponent suffix of a numeric literal (`e5`, `E-3`, ...),
applied to an already-parsed mantissa. -/
def parseExpPart (cs : List Char) (base : ℚ) : Option ℚ :=
  match cs with
  | [] => some base
  | 'e' :: rest | 'E' :: rest =>
      let sgnRest : Int × List Char :=
        match rest with
        | '+' :: r => (1, r)
        | '-' :: r => (-1, r)
        | r => (1, r)
      let ds := sgnRest.2.takeWhile Char.isDigit
      let r3 := sgnRest.2.dropWhile Char.isDigit
      if ds.isEmpty || !r3.isEmpty then none
      else if sgnRest.1 = 1 then some (base * 10 ^ digitsToNat ds)
      else some (base / 10 ^ digitsToNat ds)
  | _ => none

/-- Unsigned decimal literal with optional fraction and exponent. -/
def parseUnsigned (cs : List Char) : Option ℚ :=
  let ip := cs.takeWhile Char.isDigit
  let r1 := cs.dropWhile Char.isDigit
  match r1 with
  | '.' :: r2 =>
      let fp := r2.takeWhile Char.isDigit
      let r3 := r2.dropWhile Char.isDigit
      if ip.isEmpty && fp.isEmpty then none
      else parseExpPart r3 ((digitsToNat ip : ℚ) + (digitsToNat fp : ℚ) / 10 ^ fp.length)
  | _ =>
      if ip.isEmpty then none else parseExpPart r1 (digitsToNat ip)

/-- Strip leading and trailing whitespace from a character list (the
`str.strip()` Python applies before float conversion). -/
def trimChars (cs : List Char) : List Char :=
  ((cs.dropWhile Char.isWhitespace).reverse.dropWhile Char.isWhitespace).reverse

/-- Numeric parse of a string, modelling the per-element behaviour of
`pd.to_numeric(..., errors=coerce)`: optional surrounding whitespace,
optional sign, decimal mantissa, optional exponent. -/
def parseNumericStr (s : String) : Option ℚ :=
  match trimChars s.toList with
  | '+' :: r => parseUnsigned r
  | '-' :: r => (parseUnsigned r).map Neg.neg
  | r => parseUnsigned r

/-- Per-cell numeric coercion, modelling `pd.to_numeric(series,
errors=coerce)`: ints, floats and bools convert, numeric strings parse,
everything else (nulls, dates, containers, other strings) becomes `NaN`
(`none`). -/
def toNumericOpt : PyVal → Option ℚ
  | .int n => some (n : ℚ)
  | .float q => some q
  | .bool b => some (if b then 1 else 0)
  | .str s => parseNumericStr s
  | _ => none

/-- Exact-shape match for the regex `^\d{4}-\d{2}-\d{2}$` (resp. with a
different separator/order below). -/
def dateFmtYMDdash (s : String) : Bool :=
  match s.toList with
  | [a, b, c, d, '-', e, f, '-', g, h] => ([a, b, c, d, e, f, g, h]).all Char.isDigit
  | _ => false

/-- Matches `^\d{2}/\d{2}/\d{4}$` (MM/DD/YYYY). -/
def dateFmtMDYslash (s : String) : Bool :=
  match s.toList with
  | [a, b, '/', c, d, '/', e, f, g, h] => ([a, b, c, d, e, f, g, h]).all Char.isDigit
  | _ => false

/-- Matches `^\d{2}-\d{2}-\d{4}$` (DD-MM-YYYY). -/
def dateFmtDMYdash (s : String) : Bool :=
  match s.toList with
  | [a, b, '-', c, d, '-', e, f, g, h] => ([a, b, c, d, e, f, g, h]).all Char.isDigit
  | _ => false

/-- Matches `^\d{4}/\d{2}/\d{2}$` (YYYY/MM/DD). -/
def dateFmtYMDslash (s : String) : Bool :=
  match s.toList with
  | [a, b, c, d, '/', e, f, '/', g, h] => ([a, b, c, d, e, f, g, h]).all Char.isDigit
  | _ => false

/-- Whether a string parses as a date.  Models the success of
`pd.to_datetime(..., errors=coerce, format=mixed)` on a string cell; the
model accepts the same four shapes the source's date regexes use, which is
the only date-string vocabulary exercised anywhere in this development (no
claim depends on the exact set of parseable date strings). -/
def strParsesDate (s : String) : Bool :=
  dateFmtYMDdash s || dateFmtMDYslash s || dateFmtDMYdash s || dateFmtYMDslash s

/-- Numeric day value of a date string of one of the four recognised
shapes, used only so parsed date columns land on the model's rational time
axis; monotone in (year, month, day). -/
def dateStrValue (s : String) : ℚ :=
  let ds := (s.toList.filter Char.isDigit).map (fun c => c.toNat - 48)
  match ds with
  | [a, b, c, d, e, f, g, h] =>
      if dateFmtYMDdash s || dateFmtYMDslash s then
        (((a * 1000 + b * 100 + c * 10 + d) * 12 + (e * 10 + f)) * 31 + (g * 10 + h) : Nat)
      else if dateFmtMDYslash s then
        (((e * 1000 + f * 100 + g * 10 + h) * 12 + (a * 10 + b)) * 31 + (c * 10 + d) : Nat)
      else
        (((e * 1000 + f * 100 + g * 10 + h) * 12 + (c * 10 + d)) * 31 + (a * 10 + b) : Nat)
  | _ => 0

/-- Per-cell datetime coercion, modelling `pd.to_datetime(series,
errors=coerce, format=mixed)`: datetime/date values pass through, strings
parse per `strParsesDate`, everything else coerces to `NaT` (`none`). -/
def toDatetimeOpt : PyVal → Option ℚ
  | .dt _ t => some t
  | .str s => if strParsesDate s then some (dateStrValue s) else none
  | _ => none

/-- Pandas storage dtype of a column, as opposed to the semantic dtype the
Type Classifier infers.  `object` covers strings and mixed content. -/
inductive Dtype where
  | int64 | float64 | boolDtype | datetime64 | object
deriving DecidableEq, Repr

/-- `pd.api.types.is_numeric_dtype`: true for integer, float and bool
storage (bool storage is returned as boolean earlier in the cascade, so
the bool case is unreachable there). -/
def isNumericDtype : Dtype → Bool
  | .int64 => true
  | .float64 => true
  | .boolDtype => true
  | _ => false

/-- `np.number` storage selection as used by
`df.select_dtypes(include=[np.number])`: integer and float storage only
(bool and datetime are excluded). -/
def isNpNumberDtype : Dtype → Bool
  | .int64 => true
  | .float64 => true
  | _ => false

/-- A named pandas column: storage dtype plus the cell list. -/
structure Column where
  name : String
  dtype : Dtype
  cells : List PyVal
deriving DecidableEq, Repr

/-- A pandas DataFrame: a shared row-label index plus named columns.  A
freshly constructed frame has the default `RangeIndex` `[0, 1, ...]`;
sampling preserves the original labels of the selected rows. -/
structure DataFrame where
  index : List Int
  cols : List Column
deriving DecidableEq, Repr

/-- Row count (`len(df)`). -/
def DataFrame.nrows (df : DataFrame) : Nat := df.index.length

/-- Well-formedness: every column has one cell per row label. -/
def DataFrame.Aligned (df : DataFrame) : Prop :=
  ∀ c ∈ df.cols, c.cells.length = df.index.length

/-- `df.empty`: no columns or no rows. -/
def DataFrame.isEmpty (df : DataFrame) : Bool :=
  df.cols.isEmpty || df.index.isEmpty

/-- The non-null cells of a list, in order (`series.dropna()`). -/
def nonNullCells (cells : List PyVal) : List PyVal :=
  cells.filter (fun v => !v.isNull)

/-- The set of Python runtime types present in a list
(`set(type(x) for x in series if x is not None)`). -/
def pyUniqueTypes (vs : List PyVal) : List PyType :=
  (vs.map PyVal.pyType).dedup

/-- `_determine_dtype(series)`: the Type Classifier's cascade, applied to
the non-null cells of a column (`dt` is the column's storage dtype, which
the pandas checks in the source read off the series object).  The branch
order mirrors the source exactly: empty guard, datetime storage, boolean
(storage or two-unique-values-in-boolean-set, skipped when some value is
unhashable), numeric storage, all-string head with numeric-parse
thresholds, multi-type analysis, datetime-string parse, all-string head,
object fallback. -/
def determine_dtype (dt : Dtype) (vals : List PyVal) : String :=
  if vals.length = 0 then "text"
  else if dt = .datetime64 then "datetime"
  else
    let boolish :=
      if vals.all PyVal.hashable then
        if dt = .boolDtype then true
        else
          let uq := pyUnique vals
          uq.length = 2 && uq.all inBoolSet
      else false
    if boolish then "boolean"
    else if isNumericDtype dt then "numeric"
    else if (vals.take 100).all PyVal.isString then
      let validNumeric := vals.countP (fun v => (toNumericOpt v).isSome)
      if (validNumeric : ℚ) / vals.length > 9 / 10 then "numeric"
      else if validNumeric > 0 then "mixed"
      else "string"
    else
      let types := pyUniqueTypes (vals.filter (fun v => !v.isNull))
      if types.length > 1 then
        if types.all (fun t => t = .strT || t = .datetimeT || t = .dateT) then
          if vals.countP (fun v => (toDatetimeOpt v).isSome) = vals.length then "datetime"
          else "mixed"
        else if types.any (fun t => t = .listT || t = .dictT || t = .tupleT || t = .setT) then
          "object"
        else "mixed"
      else
        let validDates := vals.countP (fun v => (toDatetimeOpt v).isSome)
        if validDates > 0 && (validDates : ℚ) / vals.length > 7 / 10 then "datetime"
        else if (vals.take 100).all PyVal.isString then "string"
        else "object"

/-- First-occurrence deduplication (insertion order of a Python dict /
hash table). -/
def dedupFirst {α : Type} [DecidableEq α] (l : List α) : List α :=
  l.foldl (fun acc x => if x ∈ acc then acc else acc ++ [x]) []

/-- Stable insertion sort of rationals (ascending); models the sorted
order pandas uses for `quantile` and `sort_values`. -/
def insertSorted (x : ℚ) : List ℚ → List ℚ
  | [] => [x]
  | y :: ys => if x ≤ y then x :: y :: ys else y :: insertSorted x ys

def sortQ (xs : List ℚ) : List ℚ :=
  xs.foldr insertSorted []

def minQ : List ℚ → ℚ
  | [] => 0
  | x :: xs => xs.foldl min x

def maxQ : List ℚ → ℚ
  | [] => 0
  | x :: xs => xs.foldl max x

/-- `Series.quantile(p)` with pandas' default linear interpolation: at
fractional position `p * (n - 1)` of the sorted values. -/
def quantile (xs : List ℚ) (p : ℚ) : ℚ :=
  let s := sortQ xs
  if s.isEmpty then 0
  else
    let pos : ℚ := p * ((s.length : ℚ) - 1)
    let i : Nat := (Rat.floor pos).toNat
    let lo := s.getD i 0
    let hi := s.getD (i + 1) lo
    lo + (pos - (Rat.floor pos : ℤ)) * (hi - lo)

/-- `Series.value_counts()`: counts of distinct values (under Python
equality), sorted by count descending, ties in first-encounter order. -/
def insertCountDesc (x : PyVal × Nat) : List (PyVal × Nat) → List (PyVal × Nat)
  | [] => [x]
  | y :: ys => if y.2 ≥ x.2 then y :: insertCountDesc x ys else x :: y :: ys

def valueCounts (vals : List PyVal) : List (PyVal × Nat) :=
  let counted := (pyUnique vals).map (fun v => (v, vals.countP (fun w => pyEq w v)))
  counted.foldl (fun acc x => insertCountDesc x acc) []

/-- The `outliers` sub-mapping of a numeric profile. -/
structure OutlierInfo where
  count : Nat
  values : List ℚ
  indices : List Int
deriving DecidableEq, Repr

/-- Numeric profile statistics.  `std_dev_sq` holds the sample variance:
the source stores `numeric_series.std()`, whose exact value is the
irrational square root of this field, so the model keeps the square
(0 when fewer than two values, mirroring the source's NaN guard). -/
structure NumericStats where
  mean : ℚ
  median : ℚ
  std_dev_sq : ℚ
  minV : ℚ
  maxV : ℚ
  q1 : ℚ
  q3 : ℚ
  outliers : OutlierInfo
deriving DecidableEq, Repr

/-- String profile statistics; `none` fields model the `null` fallbacks
the source installs when a `TypeError`/`NaN` prevents computation. -/
structure StringStats where
  unique_count : Option Nat
  unique_percentage : Option ℚ
  most_common_values : List (PyVal × Nat)
  is_potential_id : Bool
  avg_length : Option ℚ
  min_length : Option Nat
  max_length : Option Nat
deriving DecidableEq, Repr

/-- Datetime profile statistics: the `date_range` endpoints (the source
renders them ISO-8601; the model keeps the rational time value) and the
detected frequency label. -/
structure DatetimeStats where
  date_min : ℚ
  date_max : ℚ
  frequency : String
deriving DecidableEq, Repr

structure BooleanStats where
  true_count : Nat
  false_count : Nat
  true_percentage : ℚ
deriving DecidableEq, Repr

structure MixedStats where
  type_distribution : List (PyType × Nat)
  unique_count : Option Nat
deriving DecidableEq, Repr

/-- Object profile statistics (the source also stores the constant entry
`type: "object"`, carried by the constructor itself here). -/
structure ObjectStats where
  unique_count : Option Nat
deriving DecidableEq, Repr

/-- The dtype-specific part of a column profile; `allNull` is the
short-circuit profile with no further statistics. -/
inductive ColStats where
  | allNull
  | numeric (st : NumericStats)
  | string (st : StringStats)
  | datetime (st : Option DatetimeStats)
  | boolean (st : BooleanStats)
  | mixed (st : MixedStats)
  | object (st : ObjectStats)
deriving DecidableEq, Repr

/-- A column profile as assembled by `_profile_column`. -/
structure ColProfile where
  count : Nat
  null_count : Nat
  null_percentage : ℚ
  dtype : String
  stats : ColStats
deriving DecidableEq, Repr

/-- `_profile_numeric(non_null)`: summary statistics and IQR outliers with
the widened 2.0 fence.  Input is the non-null (label, value) pairs; the
numeric coercion drops whatever fails to parse, keeping labels, exactly
like `pd.to_numeric(series, errors=coerce).dropna()`. -/
def profile_numeric (pairs : List (Int × PyVal)) : NumericStats :=
  let np := pairs.filterMap (fun p => (toNumericOpt p.2).map (fun q => (p.1, q)))
  let xs := np.map Prod.snd
  let n := xs.length
  let mean := xs.sum / (n : ℚ)
  let variance := if n ≤ 1 then 0 else (xs.map (fun x => (x - mean) * (x - mean))).sum / ((n : ℚ) - 1)
  let q1 := quantile xs (1 / 4)
  let q3 := quantile xs (3 / 4)
  let iqr := q3 - q1
  let lowerBound := q1 - 2 * iqr
  let upperBound := q3 + 2 * iqr
  let outs := np.filter (fun p => p.2 < lowerBound || upperBound < p.2)
  { mean := mean
    median := quantile xs (1 / 2)
    std_dev_sq := variance
    minV := minQ xs
    maxV := maxQ xs
    q1 := q1
    q3 := q3
    outliers :=
      { count := outs.length
        values := (outs.map Prod.snd).take 100
        indices := (outs.map Prod.fst).take 100 } }

/-- `_profile_string(non_null)`: cardinality, top-10 value counts,
potential-ID flag and string-length statistics.  Unhashable values make
`nunique`/`value_counts` raise, degrading to `none`/empty/false; length
statistics consider only actual strings (`.str.len()` yields `NaN`
elsewhere). -/
def profile_string (vals : List PyVal) : StringStats :=
  let hashOk := vals.all PyVal.hashable
  let uc : Option Nat := if hashOk then some (pyUnique vals).length else none
  let lens := vals.filterMap (fun v => match v with | .str s => some s.length | _ => none)
  { unique_count := uc
    unique_percentage := uc.map (fun u => (u : ℚ) / (vals.length : ℚ) * 100)
    most_common_values := if hashOk then (valueCounts vals).take 10 else []
    is_potential_id :=
      match uc with
      | some u => decide (u ≠ 0 ∧ u = vals.length)
      | none => false
    avg_length := if lens.isEmpty then none else some ((lens.map (Nat.cast : Nat → ℚ)).sum / (lens.length : ℚ))
    min_length := match lens with | [] => none | x :: r => some (r.foldl Nat.min x)
    max_length := match lens with | [] => none | x :: r => some (r.foldl Nat.max x) }

/-- Count-based mode of a rational list; on ties pandas `mode()[0]`
returns the smallest value. -/
def modeQ (l : List ℚ) : ℚ :=
  let best := (dedupFirst l).foldl
    (fun acc v =>
      let c := l.count v
      match acc with
      | none => some (v, c)
      | some (bv, bc) =>
          if c > bc then some (v, c)
          else if c = bc ∧ v < bv then some (v, c)
          else some (bv, bc))
    none
  match best with
  | some (v, _) => v
  | none => 0

/-- Decimal rendering of a rational, used only inside the
`custom (<gap>)` frequency label. -/
def ratStr (q : ℚ) : String :=
  toString q.num ++ "/" ++ toString q.den

/-- `_detect_date_frequency`: modal gap between consecutive sorted
timestamps, mapped to a label.  The time axis is in days, so
`pd.Timedelta(days=1)` is `1` and `.days` is the floor. -/
def detect_date_frequency (dts : List ℚ) : String :=
  if dts.length < 2 then "insufficient_data"
  else
    let sorted := sortQ dts
    let diffs := List.zipWith (fun a b => b - a) sorted sorted.tail
    if diffs.isEmpty then "unknown"
    else
      let d := modeQ diffs
      let days := Rat.floor d
      if d = 1 then "daily"
      else if d = 7 then "weekly"
      else if 28 ≤ days ∧ days ≤ 31 then "monthly"
      else if 365 ≤ days ∧ days ≤ 366 then "yearly"
      else "custom (" ++ ratStr d ++ ")"

/-- `_profile_datetime(non_null)`: re-coerces to datetime, drops failures;
an empty result returns the empty mapping (`none`). -/
def profile_datetime (vals : List PyVal) : Option DatetimeStats :=
  let dts := vals.filterMap toDatetimeOpt
  if dts.isEmpty then none
  else some
    { date_min := minQ dts
      date_max := maxQ dts
      frequency := detect_date_frequency dts }

/-- `_profile_boolean(non_null)`: `value_counts().get(True, 0)` finds the
group of values equal (Python `==`) to `True`/`False`; string spellings
like `"True"` do not compare equal to `True`, integers `1`/`0` do. -/
def profile_boolean (vals : List PyVal) : BooleanStats :=
  let tc := vals.countP (fun v => pyEq v (.bool true))
  let fc := vals.countP (fun v => pyEq v (.bool false))
  { true_count := tc
    false_count := fc
    true_percentage := (tc : ℚ) / (vals.length : ℚ) * 100 }

/-- `_profile_mixed(non_null)`: distribution of Python runtime types in
encounter order, plus cardinality when hashable. -/
def profile_mixed (vals : List PyVal) : MixedStats :=
  let types := vals.map PyVal.pyType
  { type_distribution := (dedupFirst types).map (fun t => (t, types.count t))
    unique_count := if vals.all PyVal.hashable then some (pyUnique vals).length else none }

/-- `_profile_object(non_null)`. -/
def profile_object (vals : List PyVal) : ObjectStats :=
  { unique_count := if vals.all PyVal.hashable then some (pyUnique vals).length else none }

/-- `_profile_column(series, column_name, pattern_threshold)`: counts and
null percentage, the all-null short-circuit, then the dtype-specific
statistics (the source's `column_name`/`pattern_threshold` parameters are
unused in its body and omitted here).  `index` carries the series' row
labels, which `dropna` preserves and numeric outlier indices report. -/
def profile_column (index : List Int) (dt : Dtype) (cells : List PyVal) : ColProfile :=
  let n := cells.length
  let nc := cells.countP PyVal.isNull
  let pct := (nc : ℚ) / (n : ℚ) * 100
  let nonNullPairs := (index.zip cells).filter (fun p => !p.2.isNull)
  let nonNull := nonNullPairs.map Prod.snd
  if nonNull.isEmpty then
    { count := n, null_count := nc, null_percentage := pct, dtype := "all_null", stats := .allNull }
  else
    let d := determine_dtype dt nonNull
    let stats : ColStats :=
      if d = "numeric" then .numeric (profile_numeric nonNullPairs)
      else if d = "string" then .string (profile_string nonNull)
      else if d = "datetime" then .datetime (profile_datetime nonNull)
      else if d = "boolean" then .boolean (profile_boolean nonNull)
      else if d = "mixed" then .mixed (profile_mixed nonNull)
      else .object (profile_object nonNull)
    { count := n, null_count := nc, null_percentage := pct, dtype := d, stats := stats }

/-- Split a character list on a separator (all groups, empty ones
included), like `re` alternation over a class excluding the separator. -/
def splitOnChar (sep : Char) (cs : List Char) : List (List Char) :=
  cs.foldr
    (fun c acc =>
      match acc with
      | [] => if c = sep then [[], []] else [[c]]
      | g :: gs => if c = sep then [] :: g :: gs else (c :: g) :: gs)
    [[]]

def emailLocalChar (c : Char) : Bool :=
  c.isAlphanum || c = '.' || c = '_' || c = '%' || c = '+' || c = '-'

def emailDomainChar (c : Char) : Bool :=
  c.isAlphanum || c = '.' || c = '-'

/-- Full match of the email regex
`[a-zA-Z0-9._%+-]+@[a-zA-Z0-9.-]+[.][a-zA-Z]{2,}` (anchored both ends):
exactly one `@`; a non-empty local part over its class; a domain whose
final dot is followed by two or more letters, with a non-empty class-valid
part before that dot. -/
def emailMatch (s : String) : Bool :=
  match splitOnChar '@' s.toList with
  | [l, d] =>
      !l.isEmpty && l.all emailLocalChar &&
      (let parts := splitOnChar '.' d
       let tld := parts.getLastD []
       let pre := parts.dropLast
       parts.length ≥ 2 && tld.length ≥ 2 && tld.all Char.isAlpha &&
       decide (0 < pre.foldl (fun a p => a + p.length) 0 + (pre.length - 1)) &&
       pre.all (fun p => p.all emailDomainChar))
  | _ => false

/-- Full match of the permissive phone regex over the class
`+ - ( ) digits whitespace` (one or more characters). -/
def phoneMatch (s : String) : Bool :=
  !s.toList.isEmpty && s.toList.all
    (fun c => c = '+' || c = '-' || c = '(' || c = ')' || c.isDigit || c.isWhitespace)

/-- Pattern flags for one column; `none` models a key that is absent from
the result mapping (flags of the string block are set only for string
columns, and nothing is set for all-null columns). -/
structure Patterns where
  is_email : Option Bool := none
  is_phone : Option Bool := none
  is_date : Option Bool := none
  is_id : Option Bool := none
  is_categorical : Option Bool := none
  is_continuous : Option Bool := none
deriving DecidableEq, Repr

/-- Count of non-null string cells matched by a string predicate
(`Series.str.match(...).sum()`: non-string cells yield `NaN`, which the
sum skips). -/
def countStrMatch (p : String → Bool) (vals : List PyVal) : Nat :=
  vals.countP (fun v => match v with | .str s => p s | _ => false)

/-- `_detect_patterns(series, column_name, threshold)`: empty for all-null
columns; email/phone/date/id flags only when the first 100 non-null cells
are all strings; categorical and continuous for every column.  The
`is_date` shortcut re-runs `_determine_dtype` on the full series (nulls
included), as the source does. -/
def detect_patterns (dt : Dtype) (cells : List PyVal) (threshold : ℚ) : Patterns :=
  let nonNull := nonNullCells cells
  if nonNull.isEmpty then {}
  else
    let n : ℚ := (nonNull.length : ℚ)
    let strBlock := (nonNull.take 100).all PyVal.isString
    let dateRegexCount :=
      countStrMatch dateFmtYMDdash nonNull + countStrMatch dateFmtMDYslash nonNull +
      countStrMatch dateFmtDMYdash nonNull + countStrMatch dateFmtYMDslash nonNull
    let idFlag : Option Bool :=
      match nuniqueOpt cells with
      | some u => some (decide (u = cells.length))
      | none => some false
    let catFlag : Option Bool :=
      match nuniqueOpt cells with
      | some u =>
          some (decide (u ≤ 10 ∨ ((u : ℚ) / (cells.length : ℚ) < 1 / 20 ∧ u < 50)))
      | none => some false
    let numerics := cells.filterMap toNumericOpt
    let contFlag : Option Bool :=
      if numerics.length > 0 then
        some (decide ((((dedupFirst numerics).length : ℚ) / (cells.length : ℚ)) > 1 / 2))
      else some false
    { is_email := if strBlock then some (decide ((countStrMatch emailMatch nonNull : ℚ) / n ≥ threshold)) else none
      is_phone := if strBlock then some (decide ((countStrMatch phoneMatch nonNull : ℚ) / n ≥ threshold)) else none
      is_date :=
        if strBlock then
          if determine_dtype dt cells = "datetime" then some true
          else some (decide ((dateRegexCount : ℚ) / n ≥ threshold))
        else none
      is_id := if strBlock then idFlag else none
      is_categorical := catFlag
      is_continuous := contFlag }

/-- A Pearson coefficient `r = num / sqrt(denSq)` in exact form: `num` is
`n*Sxy - Sx*Sy` and `denSq` the product of the two corresponding variance
terms.  The source stores the floating-point `r`; the square root is
irrational in general, so the model keeps this exact pair (no claim
depends on the numeric value). -/
structure Corr where
  num : ℚ
  denSq : ℚ
deriving DecidableEq, Repr

/-- Pairwise-complete Pearson correlation of two columns (pandas `corr`
excludes rows where either value is missing). -/
def pearson (xs ys : List PyVal) : Corr :=
  let pairs := (xs.zip ys).filterMap
    (fun p =>
      match toNumericOpt p.1, toNumericOpt p.2 with
      | some a, some b => some (a, b)
      | _, _ => none)
  let n : ℚ := (pairs.length : ℚ)
  let sx := (pairs.map Prod.fst).sum
  let sy := (pairs.map Prod.snd).sum
  let sxy := (pairs.map (fun p => p.1 * p.2)).sum
  let sxx := (pairs.map (fun p => p.1 * p.1)).sum
  let syy := (pairs.map (fun p => p.2 * p.2)).sum
  { num := n * sxy - sx * sy
    denSq := (n * sxx - sx * sx) * (n * syy - sy * sy) }

/-- `_calculate_correlations(df)`: selects columns of raw numeric storage
(`select_dtypes(include=[np.number])`), returns the empty mapping when
fewer than two qualify, otherwise the full pairwise matrix as a nested
mapping without diagonal self-pairs. -/
def calculate_correlations (df : DataFrame) : List (String × List (String × Corr)) :=
  let numericColumns := df.cols.filter (fun c => isNpNumberDtype c.dtype)
  if numericColumns.length < 2 then []
  else
    numericColumns.map
      (fun c1 =>
        (c1.name,
         numericColumns.filterMap
           (fun c2 =>
             if c1.name ≠ c2.name then some (c2.name, pearson c1.cells c2.cells) else none)))

/-- One missing-value record per column. -/
structure MissingRecord where
  pattern : String
  count : Nat
  percentage : ℚ
deriving DecidableEq, Repr

/-- Row labels of the null cells (`null_mask[null_mask].index.tolist()`). -/
def null_label_list (index : List Int) (cells : List PyVal) : List Int :=
  ((index.zip cells).filter (fun p => p.2.isNull)).map Prod.fst

def allEqualInt : List Int → Bool
  | [] => false
  | d :: ds => ds.all (· = d)

/-- `_detect_missing_pattern(null_mask)`: `block` when the null labels are
exactly `0..K-1`; `systematic` when there are at least two nulls and the
consecutive label gaps form a one-element set; otherwise `random`. -/
def detect_missing_pattern (nullIdx : List Int) : String :=
  if nullIdx.isEmpty then "none"
  else if nullIdx = (List.range nullIdx.length).map Int.ofNat then "block"
  else if 1 < nullIdx.length ∧ allEqualInt (List.zipWith (fun a b => b - a) nullIdx nullIdx.tail) then
    "systematic"
  else "random"

/-- `_analyze_missing_patterns(df)`: per column, `none` / `all_missing`
short-circuits, else classify the null positions; `count` is the null
count and `percentage` the null fraction of the row count times 100. -/
def analyze_missing_patterns (df : DataFrame) : List (String × MissingRecord) :=
  df.cols.map
    (fun c =>
      let nullCount := c.cells.countP PyVal.isNull
      if nullCount = 0 then (c.name, { pattern := "none", count := 0, percentage := 0 })
      else if nullCount = df.nrows then
        (c.name, { pattern := "all_missing", count := nullCount, percentage := 100 })
      else
        (c.name,
         { pattern := detect_missing_pattern (null_label_list df.index c.cells)
           count := nullCount
           percentage := (nullCount : ℚ) / (df.nrows : ℚ) * 100 }))

/-- `_calculate_quality_score(profile, correlations, missing_patterns)`:
the unweighted mean of per-column completeness scores, numeric outlier
scores and missing-pattern scores; 100.0 when there are no scores.  The
`correlations` argument is accepted and never read, as in the source. -/
def calculate_quality_score (profile : List (String × ColProfile))
    (correlations : List (String × List (String × Corr)))
    (missing_patterns : List (String × MissingRecord)) : ℚ :=
  let completenessScores := profile.map (fun p => 100 - p.2.null_percentage)
  let outlierScores := profile.filterMap
    (fun p =>
      match p.2.stats with
      | .numeric st =>
          if p.2.dtype = "numeric" then
            some (100 - min ((st.outliers.count : ℚ) / (p.2.count : ℚ) * 100 * 10) 100)
          else none
      | _ => none)
  let patternScores := missing_patterns.map
    (fun p =>
      if p.2.pattern = "random" then 100 - p.2.percentage * (3 / 2)
      else if p.2.pattern = "systematic" then 100 - p.2.percentage * (7 / 10)
      else (100 : ℚ))
  let scores := completenessScores ++ outlierScores ++ patternScores
  if scores.isEmpty then 100 else scores.sum / (scores.length : ℚ)

/-- The `data` argument of `execute`: the `dataframe` field may be
absent, present but not a DataFrame, or an actual DataFrame. -/
inductive InputData where
  | noField
  | notADataFrame
  | withDF (df : DataFrame)
deriving DecidableEq, Repr

/-- The `config` argument of `execute`; absent keys fall back to the
defaults via `config.get`. -/
structure ProfilerConfig where
  enable_learning : Option Bool := none
  sample_size : Option Int := none
  pattern_threshold : Option ℚ := none
deriving DecidableEq, Repr

def ProfilerConfig.sampleSizeEff (c : ProfilerConfig) : Int :=
  c.sample_size.getD 100000

def ProfilerConfig.patternThresholdEff (c : ProfilerConfig) : ℚ :=
  c.pattern_threshold.getD (4 / 5)

def ProfilerConfig.enableLearningEff (c : ProfilerConfig) : Bool :=
  c.enable_learning.getD true

/-- `validate_input(data)`: missing field, wrong type, empty frame — each
check short-circuits with its error message. -/
def validate_input (data : InputData) : List String :=
  match data with
  | .noField => ["Missing required field: \x27dataframe\x27"]
  | .notADataFrame => ["\x27dataframe\x27 must be a pandas DataFrame"]
  | .withDF df => if df.isEmpty then ["\x27dataframe\x27 cannot be empty"] else []

/-- `_validate_config(config)`: negative sample size or a pattern
threshold outside `[0, 1]` are collected as errors. -/
def validate_config (config : ProfilerConfig) : List String :=
  let e1 : List String :=
    if config.sampleSizeEff < 0 then ["Invalid sample_size: must be positive"] else []
  let e2 : List String :=
    if ¬(0 ≤ config.patternThresholdEff ∧ config.patternThresholdEff ≤ 1) then
      ["Invalid pattern_threshold: must be between 0 and 1"]
    else []
  e1 ++ e2

/-- A linear congruential step (the classic glibc constants); drives the
model's deterministic row sampling. -/
def lcg (s : Nat) : Nat :=
  (1103515245 * s + 12345) % 2147483648

/-- Deterministic selection of `k` of the positions `0..total-1` without
replacement, seeded by `42`.  Models the pseudorandom choice inside
`df.sample(n=k, random_state=42)`: the exact permutation pandas draws is
internal to its PRNG; the property the source relies on (and the spec
states) is that the choice is a fixed function of the frame and `k`. -/
def sampleIdxAux : Nat → Nat → List Nat → List Nat
  | 0, _, _ => []
  | Nat.succ k, seed, remaining =>
      if remaining.isEmpty then []
      else
        let seed2 := lcg seed
        let j := seed2 % remaining.length
        let chosen := remaining.getD j 0
        chosen :: sampleIdxAux k seed2 (remaining.eraseIdx j)

def sampleIndices (total k : Nat) : List Nat :=
  sampleIdxAux k 42 (List.range total)

/-- Select rows of a frame by position, keeping their original labels. -/
def selectRows (df : DataFrame) (positions : List Nat) : DataFrame :=
  { index := positions.map (fun i => df.index.getD i 0)
    cols := df.cols.map (fun c => { c with cells := positions.map (fun i => c.cells.getD i .null) }) }

/-- `_sample_dataframe(df, sample_size)`: sample with the fixed seed when
the frame is larger than the cap, otherwise return the frame unchanged. -/
def sample_dataframe (df : DataFrame) (sampleSize : Nat) : DataFrame :=
  if df.nrows > sampleSize then selectRows df (sampleIndices df.nrows sampleSize)
  else df

/-- Run metadata of a profiling result.  `profiled_at` carries the
`datetime.now().isoformat()` string, which the model takes as an explicit
input of the orchestrator. -/
structure Metadata where
  sampled : Bool
  sample_size : Nat
  original_size : Nat
  profiled_at : String
deriving DecidableEq, Repr

/-- The `data` payload of a successful run. -/
structure ProfData where
  profile : List (String × ColProfile)
  patterns : List (String × Patterns)
  correlations : List (String × List (String × Corr))
  missing_patterns : List (String × MissingRecord)
  quality_score : ℚ
  metadata : Metadata
deriving DecidableEq, Repr

/-- The result mapping `{success, data, errors}` of `execute`. -/
structure ExecResult where
  success : Bool
  data : Option ProfData
  errors : List String
deriving DecidableEq, Repr

/-- The profiling pipeline of `execute` after validation succeeds:
optional sampling, per-column profiling and pattern detection,
correlations, missing patterns, quality score, assembly.  The model has
no learning collaborator attached (`learning_history is None` in the
source makes every learning branch a no-op regardless of
`enable_learning`), so `suggested_type` is never attached.  `now` is the
timestamp `datetime.now().isoformat()` would produce. -/
def profile_pipeline (df0 : DataFrame) (config : ProfilerConfig) (now : String) :
    Except String ProfData :=
  let sampleSize := config.sampleSizeEff
  let originalSize := df0.nrows
  let doSample := (df0.nrows : Int) > sampleSize
  let df := if doSample then sample_dataframe df0 sampleSize.toNat else df0
  let threshold := config.patternThresholdEff
  let profile := df.cols.map (fun c => (c.name, profile_column df.index c.dtype c.cells))
  let patterns := df.cols.map (fun c => (c.name, detect_patterns c.dtype c.cells threshold))
  let correlations := calculate_correlations df
  let missing := analyze_missing_patterns df
  let quality := calculate_quality_score profile correlations missing
  .ok
    { profile := profile
      patterns := patterns
      correlations := correlations
      missing_patterns := missing
      quality_score := quality
      metadata :=
        { sampled := doSample
          sample_size := df.nrows
          original_size := originalSize
          profiled_at := now } }

/-- The `execute` control flow with the post-validation body abstracted:
the body stands for everything inside the source's `try` after the two
validation gates, and an `Except.error` models an exception escaping the
body, which the top-level handler converts to a failure result carrying
the exception's message. -/
def executeCore (body : DataFrame → ProfilerConfig → String → Except String ProfData)
    (data : InputData) (config : ProfilerConfig) (now : String) : ExecResult :=
  match validate_input data with
  | e :: es => { success := false, data := none, errors := e :: es }
  | [] =>
      match validate_config config with
      | e :: es => { success := false, data := none, errors := e :: es }
      | [] =>
          match data with
          | .withDF df =>
              match body df config now with
              | .error msg => { success := false, data := none, errors := [msg] }
              | .ok d => { success := true, data := some d, errors := [] }
          | _ => { success := false, data := none, errors := validate_input data }

/-- `SmartDataProfiler.execute(data, config)` (with `datetime.now()`
passed explicitly as `now`). -/
def execute (data : InputData) (config : ProfilerConfig) (now : String) : ExecResult :=
  executeCore profile_pipeline data config now

/-- All elements of a list equal, vacuously true for the empty list (the
reading of `all gaps between consecutive null indices are equal` as a
universally quantified statement). -/
def allEqualVac : List Int → Bool
  | [] => true
  | d :: ds => ds.all (· = d)

/-- Null positions of a column counted from row 0, as the canonical row
indices the claims speak about (equal to the code's label list on the
default `RangeIndex`). -/
def nullPositions (cells : List PyVal) : List Int :=
  null_label_list ((List.range cells.length).map Int.ofNat) cells

/-- Modelled from the claim sentence for the Missing-Pattern Analyzer
(C7), exactly as stated: `none` at zero nulls, `all_missing` when every
row is null, `block` when the null positions are exactly `0..K-1`,
`systematic` when all gaps between consecutive null indices are equal
(vacuously true when there are fewer than two nulls), else `random`;
count is the null count and percentage is null count over row count times
100. -/
def claimC7Record (n : Nat) (cells : List PyVal) : MissingRecord :=
  let k := cells.countP PyVal.isNull
  let pct : ℚ := (k : ℚ) / (n : ℚ) * 100
  let pos := nullPositions cells
  let gaps := List.zipWith (fun a b => b - a) pos pos.tail
  if k = 0 then { pattern := "none", count := k, percentage := pct }
  else if k = n then { pattern := "all_missing", count := k, percentage := pct }
  else if pos = (List.range k).map Int.ofNat then { pattern := "block", count := k, percentage := pct }
  else if allEqualVac gaps then { pattern := "systematic", count := k, percentage := pct }
  else { pattern := "random", count := k, percentage := pct }

/-- The amended C7 record: as the claim states it, except that
`systematic` additionally requires at least two nulls — a single null not
at row 0 is classified `random`. -/
def amendedC7Record (n : Nat) (cells : List PyVal) : MissingRecord :=
  let k := cells.countP PyVal.isNull
  let pct : ℚ := (k : ℚ) / (n : ℚ) * 100
  let pos := nullPositions cells
  let gaps := List.zipWith (fun a b => b - a) pos pos.tail
  if k = 0 then { pattern := "none", count := k, percentage := pct }
  else if k = n then { pattern := "all_missing", count := k, percentage := pct }
  else if pos = (List.range k).map Int.ofNat then { pattern := "block", count := k, percentage := pct }
  else if 1 < pos.length ∧ allEqualVac gaps then { pattern := "systematic", count := k, percentage := pct }
  else { pattern := "random", count := k, percentage := pct }

/-- Names of the raw-numeric-storage columns of a frame, in frame order
(the columns `select_dtypes(include=[np.number])` retains). -/
def numericNames (df : DataFrame) : List String :=
  (df.cols.filter (fun c => isNpNumberDtype c.dtype)).map Column.name

/-- A profiling payload with its `profiled_at` timestamp blanked, for
stating timestamp-insensitive equality of results. -/
def stripTime (d : ProfData) : ProfData :=
  { d with metadata := { d.metadata with profiled_at := "" } }

/-- A one-column table accepted by validation whose only non-null cell is
the string at row 8: 9 of 10 rows are missing, in a `random` pattern. -/
def heavyMissingDF : DataFrame :=
  { index := [0, 1, 2, 3, 4, 5, 6, 7, 8, 9]
    cols := [{ name := "a", dtype := .object
               cells := [.null, .null, .null, .null, .null, .null, .null, .null, .str "x", .null] }] }

/-- C1: the claim says the quality score is always in [0, 100] for every
valid table accepted by validation, and the scorer's own docstring says
the same; but on a valid 10-row table with 90% random-missing cells the
pipeline's score is the mean of the completeness contribution 10 and the
missing-pattern contribution 100 - 90*1.5 = -35, i.e. -12.5, which is
negative.  The code violates the claimed (and documented) lower bound. -/
theorem quality_score_below_zero_on_heavy_random_missing :
    (execute (.withDF heavyMissingDF) {} "t").success = true ∧
    (execute (.withDF heavyMissingDF) {} "t").data.map (fun d => d.quality_score) =
      some (-25 / 2) ∧
    ((-25 : ℚ) / 2 < 0) := by decide

/-- C4: the claim says an integer column with exactly the two distinct
values 0 and 1 (non-datetime storage) is classified `numeric`, matching
the source's own comment ("not just 0/1 which could be numeric"); but
Python's `0 == False` and `1 == True` make `{0, 1}` a subset of the
boolean literal set, so `_determine_dtype` returns `boolean` for it. -/
theorem zero_one_int_column_classified_boolean :
    determine_dtype .int64 [.int 0, .int 1] = "boolean" ∧
    determine_dtype .int64 [.int 0, .int 1] ≠ "numeric" := by decide

/-- C9: the quality score never reads the `correlations` argument: for
every profile mapping and missing-pattern mapping and any two correlation
mappings, the scorer returns the same value. -/
theorem quality_score_ignores_correlations
    (profile : List (String × ColProfile))
    (c1 c2 : List (String × List (String × Corr)))
    (missing : List (String × MissingRecord)) :
    calculate_quality_score profile c1 missing = calculate_quality_score profile c2 missing := rfl

/-- C10: a column whose cells are all missing yields the empty pattern
mapping (no flag present, not even as false), and its profile reports
only count, null count, a null percentage of 100 and dtype `all_null`,
with no further statistics. -/
theorem allnull_profile_and_patterns (index : List Int) (dt : Dtype) (cells : List PyVal)
    (θ : ℚ) (hne : cells ≠ []) (hall : ∀ v ∈ cells, v.isNull = true) :
    profile_column index dt cells =
      { count := cells.length, null_count := cells.length, null_percentage := 100,
        dtype := "all_null", stats := .allNull } ∧
    detect_patterns dt cells θ = {} := by
  have hcnt : cells.countP PyVal.isNull = cells.length := List.countP_eq_length.mpr hall
  have hnn : nonNullCells cells = [] := by
    rw [nonNullCells, List.filter_eq_nil_iff]
    intro v hv
    simp [hall v hv]
  have hlen0 : cells.length ≠ 0 := by simpa [List.length_eq_zero] using hne
  have hlen : ((cells.length : ℚ)) ≠ 0 := Nat.cast_ne_zero.mpr hlen0
  have hzip : (index.zip cells).filter (fun p => !p.2.isNull) = [] := by
    rw [List.filter_eq_nil_iff]
    intro p hp
    simp [hall _ (List.of_mem_zip hp).2]
  refine ⟨?_, ?_⟩
  · rw [profile_column]
    simp only [hzip, List.map_nil, List.isEmpty_nil, if_true, hcnt]
    congr 1
    rw [div_self hlen, one_mul]
  · rw [detect_patterns]
    simp [hnn]

/-- Witness for C10 at a concrete two-row all-null column. -/
theorem allnull_profile_and_patterns_witness :
    profile_column [0, 1] .object [.null, .null] =
      { count := 2, null_count := 2, null_percentage := 100,
        dtype := "all_null", stats := .allNull } ∧
    detect_patterns .object [.null, .null] (4 / 5) = {} :=
  allnull_profile_and_patterns [0, 1] .object [.null, .null] (4 / 5) (by decide) (by decide)

/-- C2: `execute` returns `success = false`, `data = none` and a non-empty
error list whenever the dataframe field is absent, not a DataFrame or
empty, or the configuration has a negative sample size or a pattern
threshold outside [0, 1]; those checks short-circuit before any profiling
runs (the result does not depend on the profiling body); any exception
escaping the profiling body is converted to a failure carrying exactly the
exception's message; and no partially populated result is ever produced
(failure implies no data, success implies a full payload and no errors). -/
theorem execute_error_dispatch
    (body : DataFrame → ProfilerConfig → String → Except String ProfData)
    (data : InputData) (config : ProfilerConfig) (now : String) :
    ((data = .noField ∨ data = .notADataFrame ∨
        (∃ df, data = .withDF df ∧ df.isEmpty = true) ∨
        config.sampleSizeEff < 0 ∨
        config.patternThresholdEff < 0 ∨ 1 < config.patternThresholdEff) →
      (executeCore body data config now).success = false ∧
      (executeCore body data config now).data = none ∧
      (executeCore body data config now).errors ≠ [] ∧
      ∀ body2, executeCore body2 data config now = executeCore body data config now) ∧
    (∀ df msg, data = .withDF df →
      validate_input data = [] → validate_config config = [] →
      body df config now = .error msg →
      executeCore body data config now =
        { success := false, data := none, errors := [msg] }) ∧
    ((executeCore body data config now).success = false →
      (executeCore body data config now).data = none) ∧
    ((executeCore body data config now).success = true →
      (executeCore body data config now).errors = [] ∧
      (executeCore body data config now).data ≠ none) := by
  refine ⟨?_, ?_, ?_, ?_⟩
  · intro h
    rcases data with _ | _ | df
    · simp [executeCore, validate_input]
    · simp [executeCore, validate_input]
    · cases hemp : df.isEmpty with
      | true => simp [executeCore, validate_input, hemp]
      | false =>
        have hvc : validate_config config ≠ [] := by
          rcases h with h | h | ⟨df2, hdf, hemp2⟩ | h | h | h
          · exact absurd h (by simp)
          · exact absurd h (by simp)
          · cases hdf
            rw [hemp] at hemp2
            exact absurd hemp2 (by simp)
          · simp [validate_config, h]
          · have hne : ¬(0 ≤ config.patternThresholdEff ∧ config.patternThresholdEff ≤ 1) :=
              fun hc => absurd h (not_lt.mpr hc.1)
            simp [validate_config, hne]
          · have hne : ¬(0 ≤ config.patternThresholdEff ∧ config.patternThresholdEff ≤ 1) :=
              fun hc => absurd h (not_lt.mpr hc.2)
            simp [validate_config, hne]
        obtain ⟨e, es, hc⟩ : ∃ e es, validate_config config = e :: es := by
          cases hvcv : validate_config config with
          | nil => exact absurd hvcv hvc
          | cons e es => exact ⟨e, es, rfl⟩
        simp [executeCore, validate_input, hemp, hc]
  · rintro df msg rfl hvi hvc hbody
    simp [executeCore, hvi, hvc, hbody]
  · unfold executeCore
    split
    · simp
    · split
      · simp
      · split
        · split
          · simp
          · simp
        · simp
  · unfold executeCore
    split
    · simp
    · split
      · simp
      · split
        · split
          · simp
          · simp
        · simp

/-- Witness for C2: a failing profiling body on a valid one-cell frame is
converted to a failure carrying exactly its message. -/
theorem execute_error_dispatch_witness :
    executeCore (fun _ _ _ => .error "boom")
      (.withDF { index := [0], cols := [{ name := "a", dtype := .object, cells := [.str "x"] }] })
      {} "t" =
      { success := false, data := none, errors := ["boom"] } :=
  (execute_error_dispatch (fun _ _ _ => .error "boom")
      (.withDF { index := [0], cols := [{ name := "a", dtype := .object, cells := [.str "x"] }] })
      {} "t").2.1
    _ "boom" rfl (by decide) (by decide) rfl

/-- C3: with learning disabled, two runs of `execute` on the same table
and configuration agree on success flag, errors and the entire payload
once the `profiled_at` timestamp is blanked; the timestamp is the only
time-dependent field, and sampling is a fixed function of the frame and
the cap (seed 42), so both runs profile the same sampled rows. -/
theorem execute_deterministic (data : InputData) (config : ProfilerConfig) (t1 t2 : String)
    (h : config.enableLearningEff = false) :
    (execute data config t1).success = (execute data config t2).success ∧
    (execute data config t1).errors = (execute data config t2).errors ∧
    (execute data config t1).data.map stripTime = (execute data config t2).data.map stripTime := by
  unfold execute executeCore
  split
  · exact ⟨rfl, rfl, rfl⟩
  · split
    · exact ⟨rfl, rfl, rfl⟩
    · split
      · simp [profile_pipeline, stripTime]
      · exact ⟨rfl, rfl, rfl⟩

/-- Witness for C3: a concrete one-column frame profiled at two different
timestamps with learning disabled. -/
theorem execute_deterministic_witness :
    ProfilerConfig.enableLearningEff { enable_learning := some false } = false ∧
    ((execute
        (.withDF { index := [0], cols := [{ name := "b", dtype := .int64, cells := [.int 5] }] })
        { enable_learning := some false } "2024-01-01").success =
      (execute
        (.withDF { index := [0], cols := [{ name := "b", dtype := .int64, cells := [.int 5] }] })
        { enable_learning := some false } "2024-06-30").success ∧
     (execute
        (.withDF { index := [0], cols := [{ name := "b", dtype := .int64, cells := [.int 5] }] })
        { enable_learning := some false } "2024-01-01").errors =
      (execute
        (.withDF { index := [0], cols := [{ name := "b", dtype := .int64, cells := [.int 5] }] })
        { enable_learning := some false } "2024-06-30").errors ∧
     ((execute
        (.withDF { index := [0], cols := [{ name := "b", dtype := .int64, cells := [.int 5] }] })
        { enable_learning := some false } "2024-01-01").data.map stripTime =
      (execute
        (.withDF { index := [0], cols := [{ name := "b", dtype := .int64, cells := [.int 5] }] })
        { enable_learning := some false } "2024-06-30").data.map stripTime)) :=
  ⟨by decide,
   execute_deterministic
     (.withDF { index := [0], cols := [{ name := "b", dtype := .int64, cells := [.int 5] }] })
     { enable_learning := some false } "2024-01-01" "2024-06-30" (by decide)⟩

theorem corr_row_keys (nm : String) (g : Column → Corr) (nc : List Column) :
    (nc.filterMap (fun c2 => if nm ≠ c2.name then some (c2.name, g c2) else none)).map Prod.fst
      = (nc.map Column.name).filter (fun m => nm ≠ m) := by
  induction nc with
  | nil => rfl
  | cons c cs ih =>
    by_cases hc : nm ≠ c.name
    · simp only [List.filterMap_cons, if_pos hc, List.map_cons, List.filter_cons,
        decide_eq_true hc, ih, if_true]
    · simp only [List.filterMap_cons, if_neg hc, List.map_cons, List.filter_cons, ih]
      rw [decide_eq_false hc]
      simp

/-- C8: the Correlation Analyzer returns the empty mapping when fewer than
two columns have raw numeric storage; otherwise the outer keys are exactly
the numeric-storage column names, each row's keys are all the other
numeric-storage names (so every ordered pair of distinct numeric-storage
columns has an entry), no column maps to itself, and a column without
numeric storage (whatever its semantic classification) appears nowhere. -/
theorem correlations_structure (df : DataFrame) :
    ((numericNames df).length < 2 → calculate_correlations df = []) ∧
    (2 ≤ (numericNames df).length →
      (calculate_correlations df).map Prod.fst = numericNames df ∧
      ∀ p ∈ calculate_correlations df,
        p.2.map Prod.fst = (numericNames df).filter (fun m => p.1 ≠ m)) ∧
    (∀ p ∈ calculate_correlations df, p.1 ∉ p.2.map Prod.fst) ∧
    (∀ n1 n2, n1 ∈ numericNames df → n2 ∈ numericNames df → n1 ≠ n2 →
      2 ≤ (numericNames df).length →
      ∃ row, (n1, row) ∈ calculate_correlations df ∧ n2 ∈ row.map Prod.fst) ∧
    (∀ nm, nm ∉ numericNames df →
      nm ∉ (calculate_correlations df).map Prod.fst ∧
      ∀ p ∈ calculate_correlations df, nm ∉ p.2.map Prod.fst) := by
  have hnames : numericNames df
      = (df.cols.filter (fun c => isNpNumberDtype c.dtype)).map Column.name := rfl
  have hlen : (numericNames df).length
      = (df.cols.filter (fun c => isNpNumberDtype c.dtype)).length := by
    rw [hnames, List.length_map]
  by_cases hlt : (df.cols.filter (fun c => isNpNumberDtype c.dtype)).length < 2
  · have hempty : calculate_correlations df = [] := by
      simp [calculate_correlations, hlt]
    refine ⟨fun _ => hempty, fun h2 => absurd h2 (by rw [hlen]; omega), ?_, ?_, ?_⟩
    · simp [hempty]
    · intro n1 n2 _ _ _ h2
      exact absurd h2 (by rw [hlen]; omega)
    · simp [hempty]
  · have hcalc : calculate_correlations df
        = (df.cols.filter (fun c => isNpNumberDtype c.dtype)).map
            (fun c1 =>
              (c1.name,
               (df.cols.filter (fun c => isNpNumberDtype c.dtype)).filterMap
                 (fun c2 =>
                   if c1.name ≠ c2.name then some (c2.name, pearson c1.cells c2.cells)
                   else none))) := by
      simp [calculate_correlations, hlt]
    have houter : (calculate_correlations df).map Prod.fst = numericNames df := by
      rw [hcalc, hnames, List.map_map]
      rfl
    have hrows : ∀ p ∈ calculate_correlations df,
        p.2.map Prod.fst = (numericNames df).filter (fun m => p.1 ≠ m) := by
      intro p hp
      rw [hcalc] at hp
      obtain ⟨c1, _, rfl⟩ := List.mem_map.mp hp
      rw [hnames]
      exact corr_row_keys c1.name (fun c2 => pearson c1.cells c2.cells) _
    refine ⟨fun h => absurd h (by rw [hlen]; omega), fun _ => ⟨houter, hrows⟩, ?_, ?_, ?_⟩
    · intro p hp hmem
      rw [hrows p hp] at hmem
      exact absurd (of_decide_eq_true (List.mem_filter.mp hmem).2) (fun h => h rfl)
    · intro n1 n2 h1 h2 hne _
      rw [hnames] at h1
      obtain ⟨c1, hc1, rfl⟩ := List.mem_map.mp h1
      refine ⟨(df.cols.filter (fun c => isNpNumberDtype c.dtype)).filterMap
          (fun c2 =>
            if c1.name ≠ c2.name then some (c2.name, pearson c1.cells c2.cells) else none),
        ?_, ?_⟩
      · rw [hcalc]
        exact List.mem_map.mpr ⟨c1, hc1, rfl⟩
      · rw [corr_row_keys c1.name (fun c2 => pearson c1.cells c2.cells) _, ← hnames]
        exact List.mem_filter.mpr ⟨h2, decide_eq_true hne⟩
    · intro nm hnm
      constructor
      · rw [houter]
        exact hnm
      · intro p hp hmem
        rw [hrows p hp] at hmem
        exact hnm (List.mem_filter.mp hmem).1

/-- A frame with two numeric-storage columns and one column of numeric
strings (semantically numeric, object storage), for the C8 witness. -/
def corrWitnessDF : DataFrame :=
  { index := [0, 1, 2]
    cols := [{ name := "x", dtype := .int64, cells := [.int 1, .int 2, .int 3] },
             { name := "y", dtype := .float64, cells := [.float 2, .float 4, .float 6] },
             { name := "s", dtype := .object, cells := [.str "7", .str "8", .str "9"] }] }

/-- Witness for C8: on a concrete frame the outer keys are the two
numeric-storage columns, and the numeric-string column (whose semantic
classification is `numeric`) participates nowhere. -/
theorem correlations_structure_witness :
    2 ≤ (numericNames corrWitnessDF).length ∧
    (calculate_correlations corrWitnessDF).map Prod.fst = numericNames corrWitnessDF ∧
    determine_dtype .object [.str "7", .str "8", .str "9"] = "numeric" ∧
    "s" ∉ (calculate_correlations corrWitnessDF).map Prod.fst :=
  ⟨by decide,
   ((correlations_structure corrWitnessDF).2.1 (by decide)).1,
   by decide,
   ((correlations_structure corrWitnessDF).2.2.2.2 "s" (by decide)).1⟩

theorem hashable_of_isString {v : PyVal} (h : v.isString = true) : v.hashable = true := by
  cases v <;> simp_all [PyVal.isString, PyVal.hashable]

/-- C5 counterexample: a column of ten strings of which exactly nine (90%)
parse as numbers; the claim says ≥ 90% gives `numeric`, but the code
requires strictly more than 90% and classifies this column `mixed`. -/
theorem ninety_percent_numeric_strings_not_numeric :
    10 * (List.countP (fun v => (toNumericOpt v).isSome)
        [PyVal.str "1", .str "2", .str "3", .str "4", .str "5",
         .str "6", .str "7", .str "8", .str "9", .str "abc"]) =
      9 * ([PyVal.str "1", .str "2", .str "3", .str "4", .str "5",
            .str "6", .str "7", .str "8", .str "9", .str "abc"]).length ∧
    determine_dtype .object
      [PyVal.str "1", .str "2", .str "3", .str "4", .str "5",
       .str "6", .str "7", .str "8", .str "9", .str "abc"] = "mixed" ∧
    determine_dtype .object
      [PyVal.str "1", .str "2", .str "3", .str "4", .str "5",
       .str "6", .str "7", .str "8", .str "9", .str "abc"] ≠ "numeric" := by decide

/-- C5 (amended): for a non-empty all-string column that the boolean rule
does not capture (its distinct values are not exactly two drawn from the
boolean spellings), the classifier returns `numeric` exactly when the
fraction of values that parse as numbers strictly exceeds 90%, `mixed`
when that fraction is positive but at most 90%, and `string` when no
value parses. -/
theorem numeric_string_thresholds (vals : List PyVal)
    (hne : vals ≠ [])
    (hstr : ∀ v ∈ vals, v.isString = true)
    (hnb : ¬((pyUnique vals).length = 2 ∧ (pyUnique vals).all inBoolSet = true)) :
    determine_dtype .object vals =
      (if (vals.countP (fun v => (toNumericOpt v).isSome) : ℚ) / (vals.length : ℚ) > 9 / 10 then
        "numeric"
       else if vals.countP (fun v => (toNumericOpt v).isSome) > 0 then "mixed"
       else "string") := by
  have hlen : ¬(vals.length = 0) := by simpa [List.length_eq_zero] using hne
  have hh : vals.all PyVal.hashable = true := by
    rw [List.all_eq_true]
    intro v hv
    exact hashable_of_isString (hstr v hv)
  have htake : (vals.take 100).all PyVal.isString = true := by
    rw [List.all_eq_true]
    intro v hv
    exact hstr v (List.take_subset _ _ hv)
  have hbb : (decide ((pyUnique vals).length = 2) && (pyUnique vals).all inBoolSet) = false := by
    by_cases h2 : (pyUnique vals).length = 2
    · by_cases h3 : (pyUnique vals).all inBoolSet = true
      · exact absurd ⟨h2, h3⟩ hnb
      · simp [h3]
    · simp [h2]
  rw [determine_dtype]
  simp only [if_neg hlen, hh, htake, hbb, if_true, if_false]
  norm_num [isNumericDtype]
  simp

/-- Witness for C5 (amended) at a two-string column that parses fully. -/
theorem numeric_string_thresholds_witness :
    ([PyVal.str "1", PyVal.str "2"] ≠ ([] : List PyVal)) ∧
    determine_dtype .object [PyVal.str "1", PyVal.str "2"] = "numeric" := by
  refine ⟨by decide, ?_⟩
  rw [numeric_string_thresholds [PyVal.str "1", PyVal.str "2"] (by decide) (by decide) (by decide)]
  decide

/-- C6 counterexample: in the column `["a", "b", null]` every non-null
value is distinct from every other non-null value, yet `is_id` is false,
because the code compares the distinct count (2) against the full row
count (3), so missing cells block the flag. -/
theorem unique_nonnull_with_missing_not_id :
    (detect_patterns .object [.str "a", .str "b", .null] (4 / 5)).is_id = some false ∧
    (pyUnique (nonNullCells [.str "a", .str "b", .null])).length =
      (nonNullCells [.str "a", .str "b", .null]).length := by decide

theorem foldl_insertIfNew_length (l : List PyVal) :
    ∀ acc, (l.foldl insertIfNew acc).length ≤ acc.length + l.length := by
  induction l with
  | nil => intro acc; simp
  | cons x xs ih =>
    intro acc
    have h2 : (insertIfNew acc x).length ≤ acc.length + 1 := by
      unfold insertIfNew
      split <;> simp
    have h := ih (insertIfNew acc x)
    simp only [List.foldl_cons, List.length_cons]
    omega

theorem pyUnique_length_le (l : List PyVal) : (pyUnique l).length ≤ l.length := by
  have h := foldl_insertIfNew_length l []
  simpa [pyUnique] using h

/-- C6 (amended): for a non-empty string column, `is_id` is present and is
true exactly when the column has no missing cells and all its values are
mutually distinct; a repeated value, or any missing cell, forces false
(the unhashable case of the claim is vacuous for string columns). -/
theorem is_id_iff_no_missing_and_all_distinct (dt : Dtype) (cells : List PyVal) (θ : ℚ)
    (hne : nonNullCells cells ≠ [])
    (hstr : ∀ v ∈ nonNullCells cells, v.isString = true) :
    (detect_patterns dt cells θ).is_id =
      some (decide (cells.countP PyVal.isNull = 0 ∧
        (pyUnique (nonNullCells cells)).length = (nonNullCells cells).length)) := by
  have hnnE : (nonNullCells cells).isEmpty = false := by
    cases h : (nonNullCells cells).isEmpty
    · rfl
    · exact absurd (List.isEmpty_iff.mp h) hne
  have htake : ((nonNullCells cells).take 100).all PyVal.isString = true := by
    rw [List.all_eq_true]
    intro v hv
    exact hstr v (List.take_subset _ _ hv)
  have hall : cells.all PyVal.hashable = true := by
    rw [List.all_eq_true]
    intro v hv
    cases hnull : v.isNull
    · exact hashable_of_isString (hstr v (List.mem_filter.mpr ⟨hv, by rw [hnull]; rfl⟩))
    · cases v <;> simp_all [PyVal.isNull, PyVal.hashable]
  have hnu : nuniqueOpt cells = some ((pyUnique (nonNullCells cells)).length) := by
    rw [nuniqueOpt, if_pos hall]
    rfl
  rw [detect_patterns]
  simp only [hnnE, Bool.false_eq_true, if_false, htake, if_true, hnu]
  congr 1
  rw [decide_eq_decide]
  have hle : (pyUnique (nonNullCells cells)).length ≤ (nonNullCells cells).length :=
    pyUnique_length_le _
  have hsplit : (nonNullCells cells).length + cells.countP PyVal.isNull = cells.length := by
    have h1 : cells.countP (fun v => !v.isNull) = (cells.filter (fun v => !v.isNull)).length :=
      List.countP_eq_length_filter (fun v => !v.isNull) cells
    have h2 : cells.length = cells.countP PyVal.isNull + cells.countP (fun v => !v.isNull) := by
      have h3 := List.length_eq_countP_add_countP (p := fun v => PyVal.isNull v) (l := cells)
      simpa using h3
    rw [nonNullCells, ← h1]
    omega
  constructor
  · intro h
    omega
  · rintro ⟨h0, h1⟩
    omega

/-- Witness for C6 (amended): a two-string column with no missing cells
and distinct values has `is_id = true`. -/
theorem is_id_iff_witness :
    (detect_patterns .object [.str "u", .str "v"] (4 / 5)).is_id = some true := by
  rw [is_id_iff_no_missing_and_all_distinct .object [.str "u", .str "v"] (4 / 5)
    (by decide) (by decide)]
  decide

/-- A one-column frame with a single null at row 2 (of 4 rows): the
claim's reading classifies it `systematic` (all of the zero gaps are
vacuously equal), the code classifies it `random`. -/
def singleNullDF : DataFrame :=
  { index := [0, 1, 2, 3]
    cols := [{ name := "c", dtype := .object
               cells := [.str "u", .str "v", .null, .str "w"] }] }

/-- C7 counterexample: on a single interior null the code returns
`random`, while the claim as stated (`systematic` whenever all gaps
between consecutive null indices are equal — vacuously true for one
null) requires `systematic`. -/
theorem single_interior_null_is_random :
    analyze_missing_patterns singleNullDF =
      [("c", { pattern := "random", count := 1, percentage := 25 })] ∧
    claimC7Record singleNullDF.nrows [.str "u", .str "v", .null, .str "w"] =
      { pattern := "systematic", count := 1, percentage := 25 } ∧
    ("random" : String) ≠ "systematic" := by decide

theorem null_label_list_canonical (index : List Int) (cells : List PyVal)
    (hidx : index = (List.range index.length).map Int.ofNat)
    (hlen : cells.length = index.length) :
    null_label_list index cells = nullPositions cells := by
  rw [nullPositions, hlen, ← hidx]

theorem null_label_list_length (index : List Int) (cells : List PyVal)
    (hlen : cells.length = index.length) :
    (null_label_list index cells).length = cells.countP PyVal.isNull := by
  rw [null_label_list, List.length_map, ← List.countP_eq_length_filter]
  induction cells generalizing index with
  | nil => simp
  | cons c cs ih =>
    cases index with
    | nil => simp at hlen
    | cons i is =>
      simp only [List.zip_cons_cons, List.countP_cons]
      rw [ih is (by simpa using hlen)]

theorem detect_missing_pattern_amended (pos : List Int) (k : Nat)
    (hk : pos.length = k) (hne : pos ≠ []) :
    detect_missing_pattern pos =
      (if pos = (List.range k).map Int.ofNat then "block"
       else if 1 < pos.length ∧
           allEqualVac (List.zipWith (fun a b => b - a) pos pos.tail) = true then "systematic"
       else "random") := by
  have hE : pos.isEmpty = false := by
    cases h : pos.isEmpty
    · rfl
    · exact absurd (List.isEmpty_iff.mp h) hne
  have hg : 1 < k → List.zipWith (fun a b => b - a) pos pos.tail ≠ [] := by
    intro h1
    have hlz : (List.zipWith (fun a b => b - a) pos pos.tail).length
        = min pos.length pos.tail.length := List.length_zipWith _ _ _
    have hlt : pos.tail.length = pos.length - 1 := List.length_tail pos
    intro hcon
    rw [hcon] at hlz
    simp at hlz
    omega
  rw [detect_missing_pattern]
  simp only [hE, Bool.false_eq_true, if_false, hk]
  by_cases hb : pos = (List.range k).map Int.ofNat
  · rw [if_pos hb, if_pos hb]
  · rw [if_neg hb, if_neg hb]
    apply if_congr ?_ rfl rfl
    constructor
    · rintro ⟨h1, h2⟩
      refine ⟨h1, ?_⟩
      cases hgl : List.zipWith (fun a b => b - a) pos pos.tail with
      | nil => exact absurd hgl (hg h1)
      | cons d ds =>
        rw [hgl] at h2
        simpa [allEqualVac] using (by simpa [allEqualInt] using h2 : ds.all (· = d) = true)
    · rintro ⟨h1, h2⟩
      refine ⟨h1, ?_⟩
      cases hgl : List.zipWith (fun a b => b - a) pos pos.tail with
      | nil => exact absurd hgl (hg h1)
      | cons d ds =>
        rw [hgl] at h2
        simpa [allEqualInt] using (by simpa [allEqualVac] using h2 : ds.all (· = d) = true)

/-- C7 (amended): on the default `RangeIndex` and an aligned frame, the
Missing-Pattern Analyzer produces, for every column in order, exactly the
record the claim describes, amended in one point: `systematic`
additionally requires at least two nulls, so a single null not at row 0
is `random`.  Precedence, counts and percentages are as claimed. -/
theorem analyze_missing_patterns_spec (df : DataFrame)
    (hwf : df.Aligned)
    (hidx : df.index = (List.range df.index.length).map Int.ofNat) :
    analyze_missing_patterns df =
      df.cols.map (fun c => (c.name, amendedC7Record df.nrows c.cells)) := by
  rw [analyze_missing_patterns]
  apply List.map_congr_left
  intro c hc
  have hlen : c.cells.length = df.index.length := hwf c hc
  have hpos : null_label_list df.index c.cells = nullPositions c.cells :=
    null_label_list_canonical df.index c.cells hidx hlen
  have hposlen : (nullPositions c.cells).length = c.cells.countP PyVal.isNull := by
    rw [← hpos]
    exact null_label_list_length df.index c.cells hlen
  simp only [amendedC7Record]
  by_cases hk0 : c.cells.countP PyVal.isNull = 0
  · rw [if_pos hk0, if_pos hk0, hk0]
    norm_num
  · rw [if_neg hk0, if_neg hk0]
    by_cases hkn : c.cells.countP PyVal.isNull = df.nrows
    · rw [if_pos hkn, if_pos hkn]
      have hnn : df.nrows ≠ 0 := by omega
      have hcast : ((df.nrows : ℚ)) ≠ 0 := Nat.cast_ne_zero.mpr hnn
      rw [hkn, div_self hcast]
      norm_num
    · rw [if_neg hkn, if_neg hkn]
      have hpne : nullPositions c.cells ≠ [] := by
        intro hcon
        rw [hcon] at hposlen
        simp at hposlen
        omega
      rw [hpos, detect_missing_pattern_amended (nullPositions c.cells)
        (c.cells.countP PyVal.isNull) hposlen hpne]
      by_cases hb : nullPositions c.cells
          = (List.range (c.cells.countP PyVal.isNull)).map Int.ofNat
      · rw [if_pos hb, if_pos hb]
      · rw [if_neg hb, if_neg hb]
        by_cases hs : 1 < (nullPositions c.cells).length ∧
            allEqualVac (List.zipWith (fun a b => b - a) (nullPositions c.cells)
              (nullPositions c.cells).tail) = true
        · rw [if_pos hs, if_pos hs]
        · rw [if_neg hs, if_neg hs]

/-- Witness for C7 (amended) on a three-row column with nulls at rows 0
and 2 (two nulls, equal gaps, not a leading block): `systematic`. -/
theorem analyze_missing_patterns_spec_witness :
    analyze_missing_patterns
        { index := [0, 1, 2]
          cols := [{ name := "m", dtype := .object, cells := [.null, .str "q", .null] }] } =
      [("m", amendedC7Record 3 [.null, .str "q", .null])] ∧
    amendedC7Record 3 [.null, .str "q", .null] =
      { pattern := "systematic", count := 2, percentage := 200 / 3 } :=
  ⟨analyze_missing_patterns_spec
      { index := [0, 1, 2]
        cols := [{ name := "m", dtype := .object, cells := [.null, .str "q", .null] }] }
      (by intro c hc; fin_cases hc; rfl) (by decide),
   by decide⟩

end SDP
